import Mathlib

/-!
Verification of the authentication and session-lifecycle subsystem of the
garage-inventory repository, against its natural-language specification.

Server side: `AuthService` (GarageInventory.Application.Services.AuthService,
src/unnamed/part_002) orchestrates registration, login, token
issuance/validation/refresh/logout over a user repository, BCrypt password
hashing and symmetric-key JWTs.

Client side: the Angular `AuthGuard` (src/unnamed/part_008) gates navigation on
the current authentication state and redirects to the login route with a
percent-encoded `returnUrl` parameter.

Modelling conventions:
* `DateTime.UtcNow` is a `Nat` counting milliseconds since the epoch, passed
  explicitly; JWT timestamp claims (`exp`/`iat`/`nbf`) are epoch seconds, as
  serialized by `JwtSecurityTokenHandler` (second precision, floor).
* The HMAC-SHA256 signature is modelled symbolically: signing with secret `s`
  over payload `p` yields the pair `(s, p)`, and signature verification is
  equality with the expected pair.  This captures exactly the functional
  contract (a signature verifies under secret `s` iff it was produced with
  `s` over that payload) without modelling the hash function bit for bit.
* A JWT string is identified with its decoded content: the base64url/JSON
  wire encoding is injective, so equality of `JwtToken` values corresponds to
  equality of the token strings the C# code returns.
* Asynchrony (`Task`, `CancellationToken`) is erased: every method is a pure
  function of its explicit inputs.  Thrown exceptions become `Except` errors.
* The repository (`IUserRepository`) is a read snapshot: three lookup
  functions.  The last-login write performed by successful login/refresh is
  not modelled; no claim below depends on it.
-/

namespace GarageAuth

/-- GarageInventory.Domain.Entities.User: identity record.  `Guid`s are
modelled as `Nat`. -/
structure User where
  Id : Nat
  Username : String
  Email : String
  FirstName : String
  LastName : String
  PasswordHash : String
  IsActive : Bool
  LastLoginAt : Option Nat
  CreatedAt : Nat
deriving DecidableEq, Repr

/-- GarageInventory.Application.DTOs.UserDto: the safe profile projection. -/
structure UserDto where
  Id : Nat
  Username : String
  Email : String
  FirstName : String
  LastName : String
  FullName : String
  IsActive : Bool
  LastLoginAt : Option Nat
  CreatedAt : Nat
deriving DecidableEq, Repr

/-- GarageInventory.Application.DTOs.CreateUserDto: registration input. -/
structure CreateUserDto where
  Username : String
  Email : String
  Password : String
  FirstName : String
  LastName : String
deriving DecidableEq, Repr

/-- Read snapshot of IUserRepository: lookup by username, email, id. -/
structure Repo where
  byUsername : String → Option User
  byEmail : String → Option User
  byId : Nat → Option User

/-- IConfiguration: a partial map from setting keys to values. -/
def Config : Type := String → Option String

/-- Char.IsWhiteSpace, as used by String.IsNullOrWhiteSpace. -/
def charIsWs (c : Char) : Bool := c.isWhitespace

/-- string.IsNullOrWhiteSpace (the null case is the empty/whitespace string in
the model; the C# null and "" both map to ""). -/
def isNullOrWhiteSpace (s : String) : Bool := s.toList.all charIsWs

/-! ### BCrypt model

Models the external BCrypt.Net library used by `HashPassword`/`VerifyPassword`.
A real digest is `$2a$<cost>$<salt+checksum>` where the checksum is a one-way
function of salt and password; the model keeps the digest symbolic as
`"$2a$11$" ++ salt ++ "$" ++ password`, preserving the functional contract:
verification succeeds exactly for the hashed password, and distinct salts give
distinct digests.  `BCrypt.Verify` re-parses the stored digest as a salt; for
input that is not a well-formed bcrypt digest (no `$2...` version/cost prefix,
e.g. the literal string "hashedPassword") it throws `SaltParseException`
rather than returning false. -/

/-- BCrypt.Net exception surface relevant here. -/
inductive BCryptError where
  | saltParse
deriving DecidableEq, Repr

/-- BCrypt.Net.BCrypt.HashPassword with an explicit salt (the library draws the
salt randomly; the model takes it as a parameter, making the nondeterminism
explicit). -/
def bcryptHashPassword (salt password : String) : String :=
  "$2a$11$" ++ salt ++ "$" ++ password

/-- Whether a digest parses as a bcrypt hash (version/cost prefix present). -/
def bcryptWellFormed (digest : String) : Bool :=
  List.isPrefixOf "$2a$11$".toList digest.toList

/-- BCrypt.Net.BCrypt.Verify: throws `SaltParseException` on a malformed
digest; otherwise compares the recomputed hash with the digest. -/
def bcryptVerify (password digest : String) : Except BCryptError Bool :=
  if bcryptWellFormed digest then
    .ok (List.isSuffixOf ("$" ++ password).toList digest.toList)
  else
    .error .saltParse

/-! ### JWT model -/

/-- The claim set `GenerateToken` serializes, plus the registered timestamp
claims `JwtSecurityTokenHandler` adds (`exp` from `Expires`, and default
`iat`/`nbf` set to the creation instant), all at second precision. -/
structure JwtPayload where
  sub : Nat
  name : String
  email : String
  givenName : String
  surname : String
  exp : Nat
  iat : Nat
  nbf : Nat
deriving DecidableEq, Repr

/-- A structurally well-formed (decodable) JWT: payload plus HMAC signature,
the signature modelled symbolically as the (secret, signed payload) pair. -/
structure JwtToken where
  payload : JwtPayload
  sig : String × JwtPayload
deriving DecidableEq, Repr

/-- An untrusted token input string: either it decodes to a JWT or it is
malformed (not three base64url segments / undecodable). -/
inductive TokenInput where
  | wellFormed (t : JwtToken)
  | malformed (raw : String)
deriving DecidableEq, Repr

/-- Outcomes of JwtSecurityTokenHandler.ValidateToken (the exception kinds the
handler throws, before AuthService catch-alls collapse them). -/
inductive TokenError where
  | malformedEncoding
  | badSignature
  | notYetValid
  | expired
deriving DecidableEq, Repr

/-- AuthService exception surface: ArgumentException, UnauthorizedAccessException,
InvalidOperationException, and the BCrypt SaltParseException that
`VerifyPassword` lets escape. -/
inductive AuthError where
  | argument (msg : String)
  | unauthorized (msg : String)
  | invalidOperation (msg : String)
  | saltParse
deriving DecidableEq, Repr

/-- GarageInventory.Application.DTOs.LoginResponseDto. -/
structure LoginResponseDto where
  Token : JwtToken
  User : UserDto
  ExpiresAtMs : Nat
deriving DecidableEq, Repr

/-- AuthService.GetJwtSecret: configuration value with hard-coded fallback. -/
def GetJwtSecret (cfg : Config) : String :=
  (cfg "Jwt:Secret").getD
    "your-super-secret-jwt-key-that-should-be-at-least-32-characters-long"

/-- JwtSecurityTokenHandler.ValidateToken with the parameters AuthService
passes (validate signing key, no issuer/audience, ClockSkew.Zero): malformed
input fails to read; then the signature is checked against the configured
secret; then lifetime with zero skew (`nbf` in the future, or `exp` strictly
in the past, reject). -/
def validateJwt (cfg : Config) (nowMs : Nat) :
    TokenInput → Except TokenError JwtPayload
  | .malformed _ => .error .malformedEncoding
  | .wellFormed t =>
    if t.sig ≠ (GetJwtSecret cfg, t.payload) then .error .badSignature
    else if nowMs < t.payload.nbf * 1000 then .error .notYetValid
    else if t.payload.exp * 1000 < nowMs then .error .expired
    else .ok t.payload

/-- string.Trim: leading and trailing whitespace removed. -/
def trimString (s : String) : String :=
  String.mk (((s.toList.dropWhile charIsWs).reverse.dropWhile charIsWs).reverse)

/-- AuthService.MapToUserDto (User.FullName is the trimmed
"FirstName LastName" interpolation from the entity). -/
def MapToUserDto (user : User) : UserDto :=
  { Id := user.Id
    Username := user.Username
    Email := user.Email
    FirstName := user.FirstName
    LastName := user.LastName
    FullName := trimString (user.FirstName ++ " " ++ user.LastName)
    IsActive := user.IsActive
    LastLoginAt := user.LastLoginAt
    CreatedAt := user.CreatedAt }

/-- The claim set `GenerateToken` builds for a user at issuance instant
`nowMs`: identity claims from the UserDto, expiry now + 24h, `iat`/`nbf`
defaulted to now by the handler, all truncated to epoch seconds. -/
def tokenPayload (user : UserDto) (nowMs : Nat) : JwtPayload :=
  { sub := user.Id
    name := user.Username
    email := user.Email
    givenName := user.FirstName
    surname := user.LastName
    exp := nowMs / 1000 + 86400
    iat := nowMs / 1000
    nbf := nowMs / 1000 }

/-- AuthService.GenerateToken: the payload above, signed with the configured
secret. -/
def GenerateToken (cfg : Config) (user : UserDto) (nowMs : Nat) : JwtToken :=
  { payload := tokenPayload user nowMs
    sig := (GetJwtSecret cfg, tokenPayload user nowMs) }

/-- AuthService.ValidateTokenAsync: runs the handler and catch-alls every
failure to `false`. -/
def ValidateTokenAsync (cfg : Config) (nowMs : Nat) (token : TokenInput) : Bool :=
  match validateJwt cfg nowMs token with
  | .ok _ => true
  | .error _ => false

/-- AuthService.GetUserFromTokenAsync: validates the token (catch-all to
`none`), reads the NameIdentifier claim, re-fetches the account by id from the
repository, and maps it; `none` when the account no longer exists.  In the
model every decoded payload carries a `sub`, so the missing/unparseable-claim
branch of the C# code is unreachable. -/
def GetUserFromTokenAsync (repo : Repo) (cfg : Config) (nowMs : Nat)
    (token : TokenInput) : Option UserDto :=
  match validateJwt cfg nowMs token with
  | .error _ => none
  | .ok p =>
    match repo.byId p.sub with
    | some user => some (MapToUserDto user)
    | none => none

/-- AuthService.HashPassword: BCrypt with a fresh salt (explicit here). -/
def HashPassword (salt password : String) : String :=
  bcryptHashPassword salt password

/-- AuthService.VerifyPassword: a bare call to BCrypt.Verify, with no
try/catch — a parse failure escapes to the caller. -/
def VerifyPassword (password hash : String) : Except BCryptError Bool :=
  bcryptVerify password hash

/-- Login user resolution: by username, falling back to email lookup. -/
def resolveUser (repo : Repo) (username : String) : Option User :=
  match repo.byUsername username with
  | some u => some u
  | none => repo.byEmail username

/-- AuthService.LoginAsync: blank-input checks, user resolution, the
active-flag check, then password verification (note the order: the inactive
check comes before the password is ever verified), then token issuance. -/
def LoginAsync (repo : Repo) (cfg : Config) (nowMs : Nat)
    (username password : String) : Except AuthError LoginResponseDto :=
  if isNullOrWhiteSpace username then .error (.argument "Username is required")
  else if isNullOrWhiteSpace password then .error (.argument "Password is required")
  else
    match resolveUser repo username with
    | none => .error (.unauthorized "Invalid username or password")
    | some user =>
      if !user.IsActive then .error (.unauthorized "Account is inactive")
      else
        match VerifyPassword password user.PasswordHash with
        | .error _ => .error .saltParse
        | .ok false => .error (.unauthorized "Invalid username or password")
        | .ok true =>
          let userDto := MapToUserDto user
          .ok { Token := GenerateToken cfg userDto nowMs
                User := userDto
                ExpiresAtMs := nowMs + 86400000 }

/-- AuthService.IsValidEmail: the regex
`[caret][^@\s]+@[^@\s]+\.[^@\s]+$` — no whitespace anywhere, exactly one `@`
with a nonempty part before it, and after it a `.` that is neither the first
nor the last character of the domain part. -/
def IsValidEmail (email : String) : Bool :=
  let cs := email.toList
  let localPart := cs.takeWhile (fun c => c != '@')
  let domainPart := (cs.dropWhile (fun c => c != '@')).drop 1
  cs.all (fun c => !charIsWs c) &&
  (cs.count '@' == 1) &&
  !localPart.isEmpty &&
  ((domainPart.drop 1).dropLast.contains '.')

/-- The special-character class of IsValidPassword's fourth rule, by char
code: the 22 characters of the C# regex class
(bang at-sign hash dollar percent caret ampersand star parens comma dot
question double-quote single-quote colon semicolon curly braces pipe
angle brackets). -/
def specialCharCodes : List Nat :=
  [33, 64, 35, 36, 37, 94, 38, 42, 40, 41, 44, 46, 63, 34, 39, 58, 59,
   123, 125, 124, 60, 62]

/-- Membership in IsValidPassword's special-character regex class. -/
def isSpecialChar (c : Char) : Bool := specialCharCodes.contains c.toNat

/-- AuthService.IsValidPassword: at least 8 characters, and the four
regex-class checks (an uppercase letter, a lowercase letter, a digit, and a
character from the fixed special set). -/
def IsValidPassword (password : String) : Bool :=
  if password.length < 8 then false
  else
    password.toList.any Char.isUpper &&
    password.toList.any Char.isLower &&
    password.toList.any Char.isDigit &&
    password.toList.any isSpecialChar

/-- AuthService.ValidateCreateUserDto, in source order: email presence and
format, password presence and strength, first name, last name, username. -/
def ValidateCreateUserDto (dto : CreateUserDto) : Except AuthError Unit :=
  if isNullOrWhiteSpace dto.Email then .error (.argument "Email is required")
  else if !IsValidEmail dto.Email then .error (.argument "Invalid email format")
  else if isNullOrWhiteSpace dto.Password then .error (.argument "Password is required")
  else if !IsValidPassword dto.Password then
    .error (.argument "Password does not meet security requirements")
  else if isNullOrWhiteSpace dto.FirstName then .error (.argument "First name is required")
  else if isNullOrWhiteSpace dto.LastName then .error (.argument "Last name is required")
  else if isNullOrWhiteSpace dto.Username then .error (.argument "Username is required")
  else .ok ()

/-- AuthService.RegisterAsync: validation, duplicate-email then
duplicate-username checks, then creation.  The second component is the list of
accounts the call persisted through `AddAsync`, to make "nothing persisted"
observable. -/
def RegisterAsync (repo : Repo) (newGuid : Nat) (salt : String) (nowMs : Nat)
    (dto : CreateUserDto) : Except AuthError UserDto × List User :=
  match ValidateCreateUserDto dto with
  | .error e => (.error e, [])
  | .ok _ =>
    match repo.byEmail dto.Email with
    | some _ => (.error (.invalidOperation "Email already exists"), [])
    | none =>
      match repo.byUsername dto.Username with
      | some _ => (.error (.invalidOperation "Username already exists"), [])
      | none =>
        let user : User :=
          { Id := newGuid
            Username := dto.Username
            Email := dto.Email
            FirstName := dto.FirstName
            LastName := dto.LastName
            PasswordHash := HashPassword salt dto.Password
            IsActive := true
            LastLoginAt := none
            CreatedAt := nowMs }
        (.ok (MapToUserDto user), [user])

/-- AuthService.RefreshTokenAsync: resolve the user from the old token (every
validation failure having been collapsed to `none`), fail with the single
message "Invalid token", otherwise issue a fresh token. -/
def RefreshTokenAsync (repo : Repo) (cfg : Config) (nowMs : Nat)
    (token : TokenInput) : Except AuthError LoginResponseDto :=
  match GetUserFromTokenAsync repo cfg nowMs token with
  | none => .error (.unauthorized "Invalid token")
  | some user =>
    .ok { Token := GenerateToken cfg user nowMs
          User := user
          ExpiresAtMs := nowMs + 86400000 }

/-- AuthService.LogoutAsync: the body is `await Task.CompletedTask` — no
blacklist, no repository write, no state of any kind is touched.  The model
therefore has nothing to thread: logout is the constant unit function, and
every later `ValidateTokenAsync`/`RefreshTokenAsync` call sees exactly the
state it would have seen without the logout. -/
def LogoutAsync (_token : TokenInput) : Unit := ()

end GarageAuth

namespace GarageFrontend

/-! ### Angular URL serializer model

The guard (src/unnamed/part_008) calls
`router.navigate([/login], queryParams returnUrl = state.url)`; the resulting
location string is produced by Angular's default URL serializer, which renders
a query-parameter value with `encodeUriQuery`: `encodeURIComponent` followed
by un-escaping of `@ : $ , ;`.  The characters left verbatim are therefore
ASCII alphanumerics and `- _ . ! ~ * ( )` and an apostrophe and `@ : $ , ;`;
every other character is percent-encoded per UTF-8 byte with uppercase hex. -/

/-- Uppercase hex digit for a value below 16. -/
def hexDigitChar (n : Nat) : Char :=
  if n < 10 then Char.ofNat (48 + n) else Char.ofNat (55 + n)

/-- Percent-encoding of one byte. -/
def percentByte (b : Nat) : String :=
  String.mk [Char.ofNat 37, hexDigitChar (b / 16), hexDigitChar (b % 16)]

/-- UTF-8 byte sequence of a code point. -/
def utf8Bytes (n : Nat) : List Nat :=
  if n < 128 then [n]
  else if n < 2048 then [192 + n / 64, 128 + n % 64]
  else if n < 65536 then [224 + n / 4096, 128 + n / 64 % 64, 128 + n % 64]
  else [240 + n / 262144, 128 + n / 4096 % 64, 128 + n / 64 % 64, 128 + n % 64]

/-- Char codes left unencoded by Angular's `encodeUriQuery`: the
`encodeURIComponent` unreserved set (alphanumerics and
hyphen underscore dot bang tilde star apostrophe parens) plus the
query-value exceptions at-sign colon dollar comma semicolon. -/
def uriQueryAllowed (c : Char) : Bool :=
  c.isAlphanum ||
  [45, 95, 46, 33, 126, 42, 39, 40, 41, 64, 58, 36, 44, 59].contains c.toNat

/-- Angular encodeUriQuery applied to one character. -/
def encodeUriQueryChar (c : Char) : String :=
  if uriQueryAllowed c then String.mk [c]
  else ((utf8Bytes c.toNat).map percentByte).foldl (· ++ ·) ""

/-- Angular encodeUriQuery over a whole query-parameter value. -/
def encodeUriQuery (s : String) : String :=
  (s.toList.map encodeUriQueryChar).foldl (· ++ ·) ""

/-- Outcome of a guarded navigation attempt: activation allowed, or denied
with the location the router was redirected to. -/
inductive GuardDecision where
  | allow
  | deny (redirectTo : String)
deriving DecidableEq, Repr

/-- AuthGuard.canActivate (src/unnamed/part_008): one snapshot of
`isAuthenticated$` (`take(1)`); `true` allows activation unchanged, `false`
navigates to `/login` carrying `state.url` as the `returnUrl` query parameter
(serialized percent-encoded by the router) and denies activation. -/
def canActivate (isAuthenticated : Bool) (stateUrl : String) : GuardDecision :=
  if isAuthenticated then .allow
  else .deny ("/login?returnUrl=" ++ encodeUriQuery stateUrl)

/-- Client-resident session record (token string, profile snapshot elided,
expiry instant in ms). -/
structure ClientSession where
  token : String
  expiresAtMs : Nat
deriving DecidableEq, Repr

/-- Modelled from the spec: the Angular `Auth` service that provides
`isAuthenticated$` is absent from the sources (only its test file
src/frontend/src/app/core/services/auth.spec.ts and its consumers are
present).  Per spec section 4.4, `isAuthenticated` is computed, not cached: a
session exists and its `expiresAt` is strictly in the future. -/
def isAuthenticated (sess : Option ClientSession) (nowMs : Nat) : Bool :=
  match sess with
  | none => false
  | some s => nowMs < s.expiresAtMs

end GarageFrontend

/-! ## Concrete fixtures used by the theorems below -/

namespace GarageAuth

/-- Configuration with no `Jwt:Secret` entry. -/
def cfgNone : Config := fun _ => none

/-- Repository with no accounts. -/
def emptyRepo : Repo :=
  { byUsername := fun _ => none, byEmail := fun _ => none, byId := fun _ => none }

/-- An active demo account whose password is "Password1!". -/
def demoUser : User :=
  { Id := 1
    Username := "johndoe"
    Email := "john@example.com"
    FirstName := "John"
    LastName := "Doe"
    PasswordHash := bcryptHashPassword "demosalt" "Password1!"
    IsActive := true
    LastLoginAt := none
    CreatedAt := 0 }

/-- The demo account's safe profile projection. -/
def demoDto : UserDto := MapToUserDto demoUser

/-- Repository holding exactly the active demo account. -/
def demoRepo : Repo :=
  { byUsername := fun s => if s = "johndoe" then some demoUser else none
    byEmail := fun s => if s = "john@example.com" then some demoUser else none
    byId := fun i => if i = 1 then some demoUser else none }

/-- The demo account, deactivated. -/
def inactiveUser : User := { demoUser with IsActive := false }

/-- Repository holding exactly the deactivated demo account. -/
def inactiveRepo : Repo :=
  { byUsername := fun s => if s = "johndoe" then some inactiveUser else none
    byEmail := fun s => if s = "john@example.com" then some inactiveUser else none
    byId := fun i => if i = 1 then some inactiveUser else none }

/-- The demo account with the malformed stored digest "hashedPassword", as in
the repository's own test LoginAsync_WithInvalidPassword. -/
def badHashUser : User := { demoUser with PasswordHash := "hashedPassword" }

/-- Repository holding exactly the malformed-digest account. -/
def badHashRepo : Repo :=
  { byUsername := fun s => if s = "johndoe" then some badHashUser else none
    byEmail := fun _ => none
    byId := fun i => if i = 1 then some badHashUser else none }

/-- Helper: a token freshly generated with the configured secret passes the
handler's validation at any instant from issuance up to its expiry second. -/
theorem validateJwt_generateToken (cfg : Config) (u : UserDto) (tIssueMs tValMs : Nat)
    (h1 : tIssueMs ≤ tValMs) (h2 : tValMs ≤ (tIssueMs / 1000 + 86400) * 1000) :
    validateJwt cfg tValMs (.wellFormed (GenerateToken cfg u tIssueMs)) =
      .ok (tokenPayload u tIssueMs) := by
  have hnbf : ¬ tValMs < (tokenPayload u tIssueMs).nbf * 1000 := by
    simp only [tokenPayload]
    have := Nat.div_mul_le_self tIssueMs 1000
    omega
  have hexp : ¬ (tokenPayload u tIssueMs).exp * 1000 < tValMs := by
    simp only [tokenPayload]
    omega
  simp [validateJwt, GenerateToken, hnbf, hexp]

end GarageAuth

/-! ## Claims -/

namespace GarageAuth

/-- Claim C1: the claim says logout marks a still-unexpired token revoked so
that no subsequent validate or refresh against it succeeds.  The code's
LogoutAsync is a no-op, so for the concrete token issued at instant 0 and
still one second into its 24-hour life, logout leaves ValidateTokenAsync
returning true and RefreshTokenAsync succeeding: the claim fails on the code,
while the repository's own tests (LogoutAsync_WithValidToken_ShouldInvalidateToken,
LogoutAsync_ShouldAddTokenToBlacklist, LogoutAsync_ShouldClearUserSession)
assert the claimed behaviour. -/
theorem logout_noop_token_still_accepted :
    LogoutAsync (.wellFormed (GenerateToken cfgNone demoDto 0)) = () ∧
    ValidateTokenAsync cfgNone 1000 (.wellFormed (GenerateToken cfgNone demoDto 0)) = true ∧
    RefreshTokenAsync demoRepo cfgNone 1000
        (.wellFormed (GenerateToken cfgNone demoDto 0)) =
      .ok { Token := GenerateToken cfgNone demoDto 1000
            User := demoDto
            ExpiresAtMs := 86401000 } ∧
    GetUserFromTokenAsync demoRepo cfgNone 1000
        (.wellFormed (GenerateToken cfgNone demoDto 0)) = some demoDto :=
  ⟨rfl, rfl, rfl, rfl⟩

/-- Claim C3: the claim says a refresh that fails because the token is expired
is distinguishable from a refresh that fails because of a tampered signature
or malformed encoding.  On the code all three produce the identical
UnauthorizedAccessException "Invalid token", because GetUserFromTokenAsync
catch-alls every handler failure to null before RefreshTokenAsync can see the
kind; the inner handler itself does distinguish them (last two conjuncts), so
the inputs really are expired resp. tampered resp. malformed.  The
repository's own tests expect distinct messages ("Token expired" versus
"Invalid token"). -/
theorem refresh_error_indistinguishable :
    RefreshTokenAsync demoRepo cfgNone 86400001
        (.wellFormed (GenerateToken cfgNone demoDto 0)) =
      .error (.unauthorized "Invalid token") ∧
    RefreshTokenAsync demoRepo cfgNone 1000
        (.wellFormed { payload := { tokenPayload demoDto 0 with email := "evil@example.com" }
                       sig := (GenerateToken cfgNone demoDto 0).sig }) =
      .error (.unauthorized "Invalid token") ∧
    RefreshTokenAsync demoRepo cfgNone 1000 (.malformed "expired.jwt.token") =
      .error (.unauthorized "Invalid token") ∧
    validateJwt cfgNone 86400001 (.wellFormed (GenerateToken cfgNone demoDto 0)) =
      .error .expired ∧
    validateJwt cfgNone 1000
        (.wellFormed { payload := { tokenPayload demoDto 0 with email := "evil@example.com" }
                       sig := (GenerateToken cfgNone demoDto 0).sig }) =
      .error .badSignature :=
  ⟨rfl, rfl, rfl, rfl, rfl⟩

/-- Claim C4: the claim says VerifyPassword returns a boolean for every digest
and never throws, returning false on malformed digests.  The code calls
BCrypt.Verify with no try/catch, so a malformed digest makes it throw
SaltParseException instead; the repository's own test
LoginAsync_WithInvalidPassword stores the malformed digest "hashedPassword"
and expects the invalid-credentials failure, which requires VerifyPassword to
return false there — the code contradicts it by letting the parse exception
escape through LoginAsync. -/
theorem verifyPassword_throws_on_malformed_digest :
    VerifyPassword "WrongPassword1!" "hashedPassword" = .error .saltParse ∧
    LoginAsync badHashRepo cfgNone 0 "johndoe" "WrongPassword1!" = .error .saltParse :=
  ⟨rfl, rfl⟩

/-- Claim C5: the claim says two tokens issued to the same identity in
immediate succession — within the same second — are distinct strings.  The
code's GenerateToken depends on the clock only through second-precision JWT
timestamp claims and adds no nonce, so the two distinct instants 1000ms and
1999ms (the same epoch second) yield identical tokens; the repository's own
test GenerateToken_ShouldCreateUniqueTokensForSameUser asserts they differ. -/
theorem same_second_tokens_identical :
    (1000 : Nat) ≠ 1999 ∧
    GenerateToken cfgNone demoDto 1000 = GenerateToken cfgNone demoDto 1999 :=
  ⟨by decide, rfl⟩

end GarageAuth

namespace GarageAuth

/-- Claim C2 counterexample: for the deactivated demo account and the wrong
password "WrongPass1!", the claim requires the generic invalid-credentials
failure, but LoginAsync reports the inactive-account failure — the active-flag
check runs before the password is ever verified. -/
theorem inactive_account_wrong_password_reports_inactive :
    LoginAsync inactiveRepo cfgNone 0 "johndoe" "WrongPass1!" =
      .error (.unauthorized "Account is inactive") ∧
    (AuthError.unauthorized "Account is inactive") ≠
      (AuthError.unauthorized "Invalid username or password") :=
  ⟨rfl, by decide⟩

/-- Claim C2 (amended): for every deactivated account that login resolves, the
inactive-account failure is reported regardless of the supplied password: the
active-flag check precedes the password check, so password verification is
never consulted for a deactivated account. -/
theorem login_inactive_check_precedes_password
    (repo : Repo) (cfg : Config) (nowMs : Nat) (username password : String)
    (user : User)
    (hu : isNullOrWhiteSpace username = false)
    (hp : isNullOrWhiteSpace password = false)
    (hres : resolveUser repo username = some user)
    (hinactive : user.IsActive = false) :
    LoginAsync repo cfg nowMs username password =
      .error (.unauthorized "Account is inactive") := by
  simp [LoginAsync, hu, hp, hres, hinactive]

/-- Witness for the amended C2 theorem at a concrete deactivated account and
wrong password. -/
theorem login_inactive_check_precedes_password_witness :
    LoginAsync inactiveRepo cfgNone 5 "johndoe" "AnotherWrongPass9$" =
      .error (.unauthorized "Account is inactive") :=
  login_inactive_check_precedes_password inactiveRepo cfgNone 5 "johndoe"
    "AnotherWrongPass9$" inactiveUser (by decide) (by decide) (by decide) (by decide)

/-- Claim C6 counterexample: with the deactivated demo account present,
logging in with a nonexistent username fails with "Invalid username or
password" while logging in to the existing (deactivated) account with a wrong
password fails with "Account is inactive": the two causes are externally
distinguishable, contrary to the claim's universal indistinguishability. -/
theorem login_failure_distinguishable_for_inactive_account :
    LoginAsync inactiveRepo cfgNone 0 "ghost" "WrongPass1!" =
      .error (.unauthorized "Invalid username or password") ∧
    LoginAsync inactiveRepo cfgNone 0 "johndoe" "WrongPass1!" =
      .error (.unauthorized "Account is inactive") ∧
    (AuthError.unauthorized "Invalid username or password") ≠
      (AuthError.unauthorized "Account is inactive") :=
  ⟨rfl, rfl, by decide⟩

/-- Claim C6 (amended): restricted to accounts that are active (or absent),
the two failure causes are indistinguishable: login with a username or email
that resolves to no account and login against an active account with a
non-verifying password fail with the identical exception type and message
"Invalid username or password".  A deactivated account instead surfaces the
distinct "Account is inactive" error even for a wrong password (see the
counterexample), so the indistinguishability holds only outside that case. -/
theorem login_no_account_and_wrong_password_same_error
    (repo : Repo) (cfg : Config) (nowMs : Nat) (username password : String)
    (hu : isNullOrWhiteSpace username = false)
    (hp : isNullOrWhiteSpace password = false) :
    (resolveUser repo username = none →
      LoginAsync repo cfg nowMs username password =
        .error (.unauthorized "Invalid username or password")) ∧
    (∀ user : User, resolveUser repo username = some user →
      user.IsActive = true →
      VerifyPassword password user.PasswordHash = .ok false →
      LoginAsync repo cfg nowMs username password =
        .error (.unauthorized "Invalid username or password")) := by
  constructor
  · intro hnone
    simp [LoginAsync, hu, hp, hnone]
  · intro user hres hactive hverify
    simp [LoginAsync, hu, hp, hres, hactive, hverify]

/-- Witness for the amended C6 theorem: a nonexistent username and a wrong
password against the active demo account produce the identical error. -/
theorem login_no_account_and_wrong_password_same_error_witness :
    LoginAsync demoRepo cfgNone 0 "ghost" "Password1!" =
      .error (.unauthorized "Invalid username or password") ∧
    LoginAsync demoRepo cfgNone 0 "johndoe" "WrongPass1!" =
      .error (.unauthorized "Invalid username or password") :=
  ⟨(login_no_account_and_wrong_password_same_error demoRepo cfgNone 0 "ghost"
      "Password1!" (by decide) (by decide)).1 (by decide),
   (login_no_account_and_wrong_password_same_error demoRepo cfgNone 0 "johndoe"
      "WrongPass1!" (by decide) (by decide)).2 demoUser (by decide) (by decide)
      rfl⟩

end GarageAuth

namespace GarageAuth

/-- Claim C7: for any identity claims and a token freshly issued from them
(the code's ttl is fixed at the spec's 24h default), validating within the
token's lifetime succeeds, and resolving the user from the token yields the
same subject id, username and email that were serialized into it — the
freshness hypotheses say the directory still maps the subject id to a record
carrying those same fields, which is exactly the state immediately after
issuance. -/
theorem issue_then_validate_roundtrip
    (cfg : Config) (repo : Repo) (u : UserDto) (user : User)
    (tIssueMs tValMs : Nat)
    (hIssue : tIssueMs ≤ tValMs)
    (hLife : tValMs ≤ (tIssueMs / 1000 + 86400) * 1000)
    (hRepo : repo.byId u.Id = some user)
    (hId : user.Id = u.Id)
    (hUsername : user.Username = u.Username)
    (hEmail : user.Email = u.Email) :
    ValidateTokenAsync cfg tValMs (.wellFormed (GenerateToken cfg u tIssueMs)) = true ∧
    ∃ dto : UserDto,
      GetUserFromTokenAsync repo cfg tValMs (.wellFormed (GenerateToken cfg u tIssueMs)) =
        some dto ∧
      dto.Id = u.Id ∧ dto.Username = u.Username ∧ dto.Email = u.Email := by
  have hval := validateJwt_generateToken cfg u tIssueMs tValMs hIssue hLife
  constructor
  · simp [ValidateTokenAsync, hval]
  · refine ⟨MapToUserDto user, ?_, ?_, ?_, ?_⟩
    · have hsub : (tokenPayload u tIssueMs).sub = u.Id := rfl
      simp [GetUserFromTokenAsync, hval, hsub, hRepo]
    · simpa [MapToUserDto] using hId
    · simpa [MapToUserDto] using hUsername
    · simpa [MapToUserDto] using hEmail

/-- Witness for the C7 round trip at the concrete demo account, token issued
at instant 0 and validated five seconds later. -/
theorem issue_then_validate_roundtrip_witness :
    ValidateTokenAsync cfgNone 5000 (.wellFormed (GenerateToken cfgNone demoDto 0)) = true ∧
    ∃ dto : UserDto,
      GetUserFromTokenAsync demoRepo cfgNone 5000
          (.wellFormed (GenerateToken cfgNone demoDto 0)) = some dto ∧
      dto.Id = demoDto.Id ∧ dto.Username = demoDto.Username ∧ dto.Email = demoDto.Email :=
  issue_then_validate_roundtrip cfgNone demoRepo demoDto demoUser 0 5000
    (by decide) (by decide) (by decide) rfl rfl rfl

/-- Claim C10: when the configuration has no Jwt:Secret entry, GetJwtSecret
silently yields the fixed hard-coded default, GenerateToken signs with that
default, and a token issued under the missing-configuration state validates
successfully (within its lifetime) against the same default secret — no
startup failure exists anywhere on this path. -/
theorem missing_secret_falls_back_to_default
    (cfg : Config) (hcfg : cfg "Jwt:Secret" = none)
    (u : UserDto) (tIssueMs tValMs : Nat)
    (hIssue : tIssueMs ≤ tValMs)
    (hLife : tValMs ≤ (tIssueMs / 1000 + 86400) * 1000) :
    GetJwtSecret cfg =
      "your-super-secret-jwt-key-that-should-be-at-least-32-characters-long" ∧
    (GenerateToken cfg u tIssueMs).sig.1 =
      "your-super-secret-jwt-key-that-should-be-at-least-32-characters-long" ∧
    ValidateTokenAsync cfg tValMs (.wellFormed (GenerateToken cfg u tIssueMs)) = true := by
  have hsecret : GetJwtSecret cfg =
      "your-super-secret-jwt-key-that-should-be-at-least-32-characters-long" := by
    simp [GetJwtSecret, hcfg]
  refine ⟨hsecret, ?_, ?_⟩
  · simpa [GenerateToken] using hsecret
  · simp [ValidateTokenAsync, validateJwt_generateToken cfg u tIssueMs tValMs hIssue hLife]

/-- Witness for the C10 fallback with the empty configuration, the demo
profile, issuance at instant 0 and validation one second later. -/
theorem missing_secret_falls_back_to_default_witness :
    GetJwtSecret cfgNone =
      "your-super-secret-jwt-key-that-should-be-at-least-32-characters-long" ∧
    (GenerateToken cfgNone demoDto 0).sig.1 =
      "your-super-secret-jwt-key-that-should-be-at-least-32-characters-long" ∧
    ValidateTokenAsync cfgNone 1000 (.wellFormed (GenerateToken cfgNone demoDto 0)) = true :=
  missing_secret_falls_back_to_default cfgNone rfl demoDto 0 1000 (by decide) (by decide)

end GarageAuth

namespace GarageFrontend

/-- Claim C8: a navigation attempt with an unauthenticated session is denied
and redirected to the login route carrying the full original destination,
percent-encoded, as the returnUrl parameter; an attempt with an
authenticated, non-expired session is allowed with no redirect.  The last
conjunct instantiates the encoding on the spec's concrete example. -/
theorem authGuard_redirects_unauthenticated_allows_authenticated
    (sess : Option ClientSession) (nowMs : Nat) (url : String) :
    (isAuthenticated sess nowMs = false →
      canActivate (isAuthenticated sess nowMs) url =
        .deny ("/login?returnUrl=" ++ encodeUriQuery url)) ∧
    (isAuthenticated sess nowMs = true →
      canActivate (isAuthenticated sess nowMs) url = .allow) ∧
    encodeUriQuery "/inventory?category=electronics&sort=name" =
      "%2Finventory%3Fcategory%3Delectronics%26sort%3Dname" := by
  refine ⟨fun h => ?_, fun h => ?_, by decide⟩
  · simp [canActivate, h]
  · simp [canActivate, h]

/-- Witness for the C8 guard theorem: the missing session is denied with the
exact percent-encoded redirect of the spec's example, and a session expiring
in the future is allowed. -/
theorem authGuard_redirects_unauthenticated_allows_authenticated_witness :
    canActivate (isAuthenticated none 0) "/inventory?category=electronics&sort=name" =
      .deny ("/login?returnUrl=" ++
        encodeUriQuery "/inventory?category=electronics&sort=name") ∧
    canActivate (isAuthenticated (some { token := "tok", expiresAtMs := 10 }) 5)
      "/inventory" = .allow :=
  ⟨(authGuard_redirects_unauthenticated_allows_authenticated none 0
      "/inventory?category=electronics&sort=name").1 rfl,
   (authGuard_redirects_unauthenticated_allows_authenticated
      (some { token := "tok", expiresAtMs := 10 }) 5 "/inventory").2.1 rfl⟩

end GarageFrontend

namespace GarageAuth

/-- Follows the spec's words, for the refinement comparison of claim C9:
"password satisfying a complexity policy (at least 8 chars, upper, lower,
digit, symbol)", reading "symbol" naturally as any character that is neither
a letter nor a digit. -/
def isValidPasswordSpec (password : String) : Bool :=
  decide (8 ≤ password.length) &&
  password.toList.any Char.isUpper &&
  password.toList.any Char.isLower &&
  password.toList.any Char.isDigit &&
  password.toList.any (fun c => !(c.isAlpha || c.isDigit))

/-- Claim C9 counterexample: "Abcdefg1-" has 9 characters, an uppercase
letter, lowercase letters, a digit and the symbol hyphen, so the claim says
registration accepts it; the code rejects it (and persists nothing), because
its special-character class is the fixed set
!@#$%^&*(),.?"':;braces|<> which does not contain the hyphen. -/
theorem password_with_hyphen_symbol_rejected :
    isValidPasswordSpec "Abcdefg1-" = true ∧
    IsValidPassword "Abcdefg1-" = false ∧
    RegisterAsync emptyRepo 7 "salt" 0
        { Username := "johndoe", Email := "t@example.com", Password := "Abcdefg1-",
          FirstName := "John", LastName := "Doe" } =
      (.error (.argument "Password does not meet security requirements"), []) :=
  ⟨by decide, by decide, rfl⟩

/-- Helper: ValidateCreateUserDto only ever fails with an ArgumentException,
and when it succeeds the password passed IsValidPassword. -/
theorem validateCreateUserDto_cases (dto : CreateUserDto) :
    (∃ msg, ValidateCreateUserDto dto = .error (.argument msg)) ∨
    (ValidateCreateUserDto dto = .ok () ∧ IsValidPassword dto.Password = true) := by
  unfold ValidateCreateUserDto
  by_cases h1 : isNullOrWhiteSpace dto.Email
  · exact .inl ⟨"Email is required", by simp [h1]⟩
  by_cases h2 : IsValidEmail dto.Email
  case neg => exact .inl ⟨"Invalid email format", by simp [h1, h2]⟩
  by_cases h3 : isNullOrWhiteSpace dto.Password
  · exact .inl ⟨"Password is required", by simp [h1, h2, h3]⟩
  by_cases h4 : IsValidPassword dto.Password
  case neg =>
    exact .inl ⟨"Password does not meet security requirements",
      by simp [h1, h2, h3, h4]⟩
  by_cases h5 : isNullOrWhiteSpace dto.FirstName
  · exact .inl ⟨"First name is required", by simp [h1, h2, h3, h4, h5]⟩
  by_cases h6 : isNullOrWhiteSpace dto.LastName
  · exact .inl ⟨"Last name is required", by simp [h1, h2, h3, h4, h5, h6]⟩
  by_cases h7 : isNullOrWhiteSpace dto.Username
  · exact .inl ⟨"Username is required", by simp [h1, h2, h3, h4, h5, h6, h7]⟩
  · exact .inr ⟨by simp [h1, h2, h3, h4, h5, h6, h7], by simpa using h4⟩

/-- Claim C9 (amended): registration accepts a password exactly when it has
at least 8 characters, an uppercase letter, a lowercase letter, a digit, and
at least one character from the fixed special set
!@#$%^&*(),.?"':;braces|<> — symbols outside that set (hyphen, underscore,
plus, ...) do not satisfy the fourth rule; and whenever the password fails
the policy, registration fails with a validation error (an ArgumentException)
and persists no account. -/
theorem register_password_policy (password : String) :
    (IsValidPassword password = true ↔
      (8 ≤ password.length ∧
       (∃ c ∈ password.toList, c.isUpper = true) ∧
       (∃ c ∈ password.toList, c.isLower = true) ∧
       (∃ c ∈ password.toList, c.isDigit = true) ∧
       (∃ c ∈ password.toList, isSpecialChar c = true))) ∧
    (∀ (repo : Repo) (newGuid : Nat) (salt : String) (nowMs : Nat)
       (dto : CreateUserDto), dto.Password = password →
      IsValidPassword password = false →
      (∃ msg, (RegisterAsync repo newGuid salt nowMs dto).1 = .error (.argument msg)) ∧
      (RegisterAsync repo newGuid salt nowMs dto).2 = []) := by
  constructor
  · unfold IsValidPassword
    by_cases hlen : password.length < 8
    · constructor
      · intro h
        rw [if_pos hlen] at h
        exact absurd h (by simp)
      · rintro ⟨h8, -⟩
        exact absurd h8 (by omega)
    · rw [if_neg hlen]
      rw [Nat.not_lt] at hlen
      simp [List.any_eq_true, and_assoc, hlen]
  · intro repo newGuid salt nowMs dto hdto hbad
    rcases validateCreateUserDto_cases dto with ⟨msg, herr⟩ | ⟨_, hok⟩
    · constructor
      · exact ⟨msg, by simp [RegisterAsync, herr]⟩
      · simp [RegisterAsync, herr]
    · rw [hdto] at hok
      rw [hok] at hbad
      exact absurd hbad (by simp)

/-- Witness for the amended C9 theorem: "Pass1!" is too short, so concrete
registration with it fails with an ArgumentException and persists nothing;
and "Password1!" satisfies the characterization. -/
theorem register_password_policy_witness :
    (∃ msg, (RegisterAsync emptyRepo 7 "salt" 0
        { Username := "johndoe", Email := "t@example.com", Password := "Pass1!",
          FirstName := "John", LastName := "Doe" }).1 = .error (.argument msg)) ∧
    (RegisterAsync emptyRepo 7 "salt" 0
        { Username := "johndoe", Email := "t@example.com", Password := "Pass1!",
          FirstName := "John", LastName := "Doe" }).2 = [] ∧
    IsValidPassword "Password1!" = true :=
  ⟨((register_password_policy "Pass1!").2 emptyRepo 7 "salt" 0
      { Username := "johndoe", Email := "t@example.com", Password := "Pass1!",
        FirstName := "John", LastName := "Doe" } rfl (by decide)).1,
   ((register_password_policy "Pass1!").2 emptyRepo 7 "salt" 0
      { Username := "johndoe", Email := "t@example.com", Password := "Pass1!",
        FirstName := "John", LastName := "Doe" } rfl (by decide)).2,
   (register_password_policy "Password1!").1.mpr (by decide)⟩

end GarageAuth
